import Mathlib

/-!
Shallow embedding of the OpenWhispr meeting-detection and calendar-synchronization
engine (Electron main-process helpers: `GoogleCalendarOAuth`, `DatabaseManager`,
`GoogleCalendarManager`, `MeetingDetectionEngine`, `AudioActivityDetector`).

Conventions:
* Times are epoch milliseconds, modelled as `Int` (`Date.now()`, `getTime()`).
* JavaScript truthiness on optional strings / numbers is modelled explicitly
  (`jsStrTruthy`, absent and empty-string are falsy).
* Network calls are parameters: the token endpoint's reply and the calendar API
  are passed in as values/functions, and the requests issued are returned so that
  request-issuing behaviour is provable.
* SQLite tables are modelled as lists of rows; a statement that throws is
  modelled by a boolean failure flag, and every statement already run keeps its
  effect (the source does not wrap these statements in a transaction).
-/

namespace OpenWhispr

/-- JavaScript truthiness of an optional string: an absent value and the empty
string are falsy. -/
def jsStrTruthy : Option String → Bool
  | none => false
  | some s => !s.isEmpty

/-- JavaScript `a || b` where `a` is an optional string and the result keeps
`b` when `a` is falsy. -/
def jsOrNull (a : Option String) : Option String :=
  if jsStrTruthy a then a else none

/-- JavaScript `a || d` coercing a falsy optional string to the default `d`. -/
def jsOrDefault (a : Option String) (d : String) : String :=
  match a with
  | none => d
  | some s => if s.isEmpty then d else s

/-! ## Credential store (`DatabaseManager.saveGoogleTokens` and friends)

Table `google_calendar_tokens`: all five data columns are NOT NULL. -/

/-- A stored Google OAuth credential row (table `google_calendar_tokens`). -/
structure GoogleTokens where
  google_email : String
  access_token : String
  refresh_token : String
  expires_at : Int
  scope : String
deriving DecidableEq, Repr

/-- `DatabaseManager.saveGoogleTokens`: runs `DELETE FROM google_calendar_tokens`,
then a single-row `INSERT`.  The two statements are not wrapped in a transaction;
`deleteFails` / `insertFails` model the respective prepared statement throwing
(e.g. a NOT NULL violation on insert).  On a throw the method logs and rethrows,
and every statement already executed keeps its effect. -/
def saveGoogleTokens (rows : List GoogleTokens) (deleteFails insertFails : Bool)
    (t : GoogleTokens) : Except String Unit × List GoogleTokens :=
  if deleteFails then (Except.error "Error saving Google tokens", rows)
  else
    let rowsAfterDelete : List GoogleTokens := []
    if insertFails then (Except.error "Error saving Google tokens", rowsAfterDelete)
    else (Except.ok (), rowsAfterDelete ++ [t])

/-! ## Lazy token refresh (`GoogleCalendarOAuth.getValidAccessToken`) -/

/-- Parsed JSON body of a token-endpoint reply to a refresh-token exchange. -/
structure TokenResponse where
  error : Option String
  error_description : Option String
  access_token : String
  expires_in : Int
deriving DecidableEq, Repr

/-- `GoogleCalendarOAuth.getValidAccessToken`: reads the stored credential; when
`expires_at - 5min < Date.now()` it issues a refresh-token exchange, persists the
refreshed credential (new access token and expiry, same refresh token, email and
scope) and returns the new access token; otherwise it returns the stored access
token untouched.  `refreshResp` is the token endpoint's reply, consulted only on
the refresh path.  Returns (token result, resulting stored credential, whether a
refresh call was issued). -/
def getValidAccessToken (db : Option GoogleTokens) (now : Int)
    (refreshResp : TokenResponse) :
    Except String String × Option GoogleTokens × Bool :=
  match db with
  | none => (Except.error "No Google tokens found", db, false)
  | some tokens =>
    let fiveMinutes : Int := 5 * 60 * 1000
    if tokens.expires_at - fiveMinutes < now then
      match refreshResp.error with
      | some e =>
        (Except.error ("Token refresh failed: " ++
            jsOrDefault refreshResp.error_description e), db, true)
      | none =>
        let newExpiresAt := now + refreshResp.expires_in * 1000
        let newTokens : GoogleTokens :=
          { google_email := tokens.google_email,
            access_token := refreshResp.access_token,
            refresh_token := tokens.refresh_token,
            expires_at := newExpiresAt,
            scope := tokens.scope }
        (Except.ok refreshResp.access_token, some newTokens, true)
    else
      (Except.ok tokens.access_token, db, false)

/-! ## Per-calendar sync (`GoogleCalendarManager._syncCalendar`) -/

/-- `start` / `end` member of a calendar API event item. -/
structure ApiTime where
  dateTime : Option String
  date : Option String
deriving DecidableEq, Repr

/-- An event item of a calendar API events response.  Optional fields model
absent JSON keys.  `attendees` is the length of the attendees array when the key
is present. -/
structure ApiItem where
  id : String
  status : Option String
  summary : Option String
  startT : Option ApiTime
  endT : Option ApiTime
  hangoutLink : Option String
  conferenceData : Option String
  organizerEmail : Option String
  attendees : Option Nat
deriving DecidableEq, Repr

/-- A `calendar_events` row exactly as `_syncCalendar` builds it for upsert
(`start_time` / `end_time` keep the wire strings). -/
structure SyncEventRow where
  id : String
  calendar_id : String
  summary : Option String
  start_time : Option String
  end_time : Option String
  is_all_day : Bool
  status : String
  hangout_link : Option String
  conference_data : Option String
  organizer_email : Option String
  attendees_count : Nat
deriving DecidableEq, Repr

/-- The upsert row built for one non-cancelled item in `_syncCalendar`'s
partition loop. -/
def mkSyncRow (calendarId : String) (item : ApiItem) : SyncEventRow :=
  let isAllDay := !jsStrTruthy (item.startT.bind ApiTime.dateTime)
  { id := item.id,
    calendar_id := calendarId,
    summary := jsOrNull item.summary,
    start_time :=
      if jsStrTruthy (item.startT.bind ApiTime.dateTime) then item.startT.bind ApiTime.dateTime
      else item.startT.bind ApiTime.date,
    end_time :=
      if jsStrTruthy (item.endT.bind ApiTime.dateTime) then item.endT.bind ApiTime.dateTime
      else item.endT.bind ApiTime.date,
    is_all_day := isAllDay,
    status := jsOrDefault item.status "confirmed",
    hangout_link := jsOrNull item.hangoutLink,
    conference_data := item.conferenceData,
    organizer_email := jsOrNull item.organizerEmail,
    attendees_count := item.attendees.getD 0 }

/-- The partition loop of `_syncCalendar`: items with `status === "cancelled"`
go to the removal list (by id), every other item becomes an upsert row. -/
def partitionItems (calendarId : String) : List ApiItem → List SyncEventRow × List String
  | [] => ([], [])
  | item :: rest =>
    let (ups, rems) := partitionItems calendarId rest
    if item.status = some "cancelled" then (ups, item.id :: rems)
    else (mkSyncRow calendarId item :: ups, rems)

/-- A calendar-events request as assembled by `_syncCalendar`'s `URLSearchParams`. -/
structure SyncRequest where
  syncToken : Option String
  timeMin : Option Int
  timeMax : Option Int
  orderBy : Option String
  singleEvents : Bool
deriving DecidableEq, Repr

/-- A calendar API events response body. -/
structure SyncData where
  items : List ApiItem
  nextSyncToken : Option String
deriving DecidableEq, Repr

/-- An error thrown by `_apiGet` (HTTP status ≥ 400 carries `statusCode`). -/
structure ApiErr where
  message : String
  statusCode : Option Nat
deriving DecidableEq, Repr

/-- A `google_calendars` row as read by the sync engine. -/
structure GoogleCalendar where
  id : String
  summary : String
  is_selected : Bool
  sync_token : Option String
deriving DecidableEq, Repr

/-- The full-window request: `singleEvents`, `orderBy=startTime`,
`timeMin = now`, `timeMax = now + 7 days`. -/
def fullWindowRequest (now : Int) : SyncRequest :=
  { syncToken := none,
    timeMin := some now,
    timeMax := some (now + 7 * 24 * 60 * 60 * 1000),
    orderBy := some "startTime",
    singleEvents := true }

/-- The incremental request: `timeMin`, `timeMax` and `orderBy` are deleted and
`syncToken` is set. -/
def incrementalRequest (tok : String) : SyncRequest :=
  { syncToken := some tok,
    timeMin := none,
    timeMax := none,
    orderBy := none,
    singleEvents := true }

/-- What `_syncCalendar` applies after a successful response: the partitioned
upserts and removals, and the new sync token when the response carries one. -/
structure SyncOutcome where
  upserts : List SyncEventRow
  removals : List String
  storedToken : Option String
deriving DecidableEq, Repr

/-- Database effects of one successful `_syncCalendar` response. -/
def applySyncData (cal : GoogleCalendar) (data : SyncData) : SyncOutcome :=
  let parts := partitionItems cal.id data.items
  { upserts := parts.1,
    removals := parts.2,
    storedToken := if jsStrTruthy data.nextSyncToken then data.nextSyncToken else none }

/-- `GoogleCalendarManager._syncCalendar`: issues the incremental request when a
sync token is stored (full-window otherwise); on a 410 Gone error it retries
once with the full-window request; any other error is rethrown.  `api` is the
calendar endpoint (`_apiGet`); the list of requests issued is returned alongside
the result. -/
def syncCalendar (cal : GoogleCalendar) (now : Int)
    (api : SyncRequest → Except ApiErr SyncData) :
    List SyncRequest × Except ApiErr SyncOutcome :=
  let firstReq :=
    if jsStrTruthy cal.sync_token then incrementalRequest (cal.sync_token.getD "")
    else fullWindowRequest now
  match api firstReq with
  | Except.ok data => ([firstReq], Except.ok (applySyncData cal data))
  | Except.error e =>
    if e.statusCode = some 410 then
      let retryReq := fullWindowRequest now
      match api retryReq with
      | Except.ok data => ([firstReq, retryReq], Except.ok (applySyncData cal data))
      | Except.error e2 => ([firstReq, retryReq], Except.error e2)
    else ([firstReq], Except.error e)

/-! ## Calendar events as seen by the scheduler and the detection engine

`calendar_events` rows read back from the store; times are epoch milliseconds
(the engine and scheduler compare `new Date(...).getTime()` values, and SQLite's
`datetime()` comparisons on ISO strings agree with the time order). -/

/-- A stored calendar event with parsed times. -/
structure CalEvent where
  id : String
  calendar_id : String
  summary : Option String
  start_time : Int
  end_time : Int
  is_all_day : Bool
  status : String
  hangout_link : Option String
  conference_data : Option String
  organizer_email : Option String
  attendees_count : Nat
deriving DecidableEq, Repr

/-- Insert into a list sorted by `start_time` (ascending). -/
def insertByStart (e : CalEvent) : List CalEvent → List CalEvent
  | [] => [e]
  | x :: xs =>
    if e.start_time ≤ x.start_time then e :: x :: xs
    else x :: insertByStart e xs

/-- Sort by `start_time` ascending (the queries end in `ORDER BY start_time ASC`). -/
def sortByStart (l : List CalEvent) : List CalEvent :=
  l.foldr insertByStart []

/-- `DatabaseManager.getActiveEvents`: non-all-day confirmed events whose window
covers now (`start_time <= now AND end_time > now`), ordered by start time. -/
def getActiveEvents (db : List CalEvent) (now : Int) : List CalEvent :=
  sortByStart (db.filter (fun e =>
    e.start_time ≤ now && now < e.end_time && !e.is_all_day && e.status = "confirmed"))

/-- `DatabaseManager.getUpcomingEvents`: non-all-day confirmed events starting
strictly after now and within `windowMinutes`, ordered by start time. -/
def getUpcomingEvents (db : List CalEvent) (now : Int) (windowMinutes : Int) : List CalEvent :=
  sortByStart (db.filter (fun e =>
    now < e.start_time && e.start_time ≤ now + windowMinutes * 60000
      && !e.is_all_day && e.status = "confirmed"))

/-! ## Detection arbiter (`MeetingDetectionEngine`) -/

/-- The payload carried by a `signal-started` event (`meeting-process-detected`
carries `processKey`/`appName`/`detectedAt`; `sustained-audio-detected` carries
`durationMs`/`detectedAt`). -/
structure SignalData where
  processKey : Option String
  appName : Option String
  durationMs : Option Int
  detectedAt : Option Int
deriving DecidableEq, Repr

/-- An open Detection record of `MeetingDetectionEngine.activeDetections`. -/
structure Detection where
  source : String
  key : String
  data : SignalData
  dismissed : Bool
deriving DecidableEq, Repr

/-- `GoogleCalendarManager.getActiveMeetingState()`: the scheduler's active
meeting slot plus the active and 15-minute-upcoming event queries. -/
structure CalendarMeetingState where
  activeMeeting : Option CalEvent
  activeEvents : List CalEvent
  upcomingEvents : List CalEvent
deriving DecidableEq, Repr

/-- `MeetingDetectionEngine` state: the open-detections map (insertion-ordered
association list keyed by `source:key`), the preference flags, and whether each
signal source is currently started. -/
structure EngineState where
  activeDetections : List (String × Detection)
  prefProcess : Bool
  prefAudio : Bool
  procRunning : Bool
  audioRunning : Bool
deriving DecidableEq, Repr

/-- Observable effects of handling a detection. -/
inductive EngineEffect where
  | notify (title body : String)
  | broadcast (channel : String)
deriving DecidableEq, Repr

/-- `IMMINENT_THRESHOLD_MS = 5 * 60 * 1000`. -/
def IMMINENT_THRESHOLD_MS : Int := 5 * 60 * 1000

/-- The notification title/body chosen by `_showPrompt`.  JavaScript renders an
absent `appName` as the string `"undefined"` in the template literal. -/
def promptTitleBody (source : String) (data : SignalData)
    (imminentEvent : Option CalEvent) : String × String :=
  match imminentEvent with
  | some evt =>
    (jsOrDefault evt.summary "Upcoming Meeting", "Your meeting is starting. Want to take notes?")
  | none =>
    if source = "process" then
      (data.appName.getD "undefined" ++ " Meeting Detected",
       "It looks like you're in a meeting. Want to take notes?")
    else
      ("Meeting Detected", "It sounds like you're in a meeting. Want to take notes?")

/-- Effects of `_showPrompt`: one native notification, then a
`meeting-detected` broadcast to all windows. -/
def showPromptEffects (source : String) (data : SignalData)
    (imminentEvent : Option CalEvent) : List EngineEffect :=
  let tb := promptTitleBody source data imminentEvent
  [EngineEffect.notify tb.1 tb.2, EngineEffect.broadcast "meeting-detected"]

/-- `MeetingDetectionEngine._handleDetection`: drops the signal when its kind is
disabled, when an open Detection with the same id exists, or when the calendar
layer reports an active meeting; otherwise records a new open Detection
(preferring an imminent calendar event as the prompt subject) and prompts.
`calendarState` is `none` when no calendar manager is wired in. -/
def handleDetection (source key : String) (data : SignalData)
    (calendarState : Option CalendarMeetingState) (now : Int) (s : EngineState) :
    EngineState × List EngineEffect :=
  if source = "process" && !s.prefProcess then (s, [])
  else if source = "audio" && !s.prefAudio then (s, [])
  else
    let detectionId := source ++ ":" ++ key
    if s.activeDetections.any (fun p => p.1 = detectionId) then (s, [])
    else
      let suppressed :=
        match calendarState with
        | some cs => cs.activeMeeting.isSome || decide (0 < cs.activeEvents.length)
        | none => false
      if suppressed then (s, [])
      else
        let imminentEvent : Option CalEvent :=
          match calendarState with
          | some cs =>
            if 0 < cs.upcomingEvents.length then
              cs.upcomingEvents.find? (fun evt =>
                evt.start_time - now ≤ IMMINENT_THRESHOLD_MS && now < evt.start_time)
            else none
          | none => none
        ({ s with activeDetections := s.activeDetections ++
            [(detectionId, { source := source, key := key, data := data, dismissed := false })] },
         showPromptEffects source data imminentEvent)

/-- The synthetic event built by `_showPrompt`'s notification click handler when
no imminent calendar event is attached. -/
def syntheticDetectedEvent (data : SignalData) (now : Int) : CalEvent :=
  { id := "detected-" ++ toString now,
    calendar_id := "__detected__",
    summary := some (match data.appName with
      | some a => if a.isEmpty then "Detected Meeting" else a ++ " Meeting"
      | none => "Detected Meeting"),
    start_time := now,
    end_time := now + 3600000,
    is_all_day := false,
    status := "confirmed",
    hangout_link := none,
    conference_data := none,
    organizer_email := none,
    attendees_count := 0 }

/-- The broadcast payload of the notification click handler. -/
structure ClickPayload where
  event : CalEvent
  source : String
  detectionId : String
deriving DecidableEq, Repr

/-- The click handler of `_showPrompt`'s notification: broadcasts
`meeting-detected-start-recording` with the imminent event when one was found,
or the synthetic `__detected__` event otherwise.  `now` is the click time. -/
def promptClick (detectionId source : String) (data : SignalData)
    (imminentEvent : Option CalEvent) (now : Int) : String × ClickPayload :=
  let event :=
    match imminentEvent with
    | some evt => evt
    | none => syntheticDetectedEvent data now
  ("meeting-detected-start-recording",
   { event := event, source := source, detectionId := detectionId })

/-- Which detector `MeetingDetectionEngine._dismiss` forwards a dismissal to. -/
inductive DismissTarget where
  | process (key : String)
  | audio
  | noTarget
deriving DecidableEq, Repr

/-- Mark the map entry for `detectionId` as dismissed. -/
def markDismissed (detectionId : String) (l : List (String × Detection)) :
    List (String × Detection) :=
  l.map (fun p => if p.1 = detectionId then (p.1, { p.2 with dismissed := true }) else p)

/-- `MeetingDetectionEngine.handleUserResponse`: on `dismiss`, forwards the
dismissal to the detection's source detector and marks the Detection dismissed
(the entry is not removed from the map). -/
def handleUserResponse (detectionId action : String) (s : EngineState) :
    EngineState × DismissTarget :=
  if action = "dismiss" then
    match s.activeDetections.find? (fun p => p.1 = detectionId) with
    | some p =>
      let target :=
        if p.2.source = "process" then DismissTarget.process p.2.key
        else if p.2.source = "audio" then DismissTarget.audio
        else DismissTarget.noTarget
      ({ s with activeDetections := markDismissed detectionId s.activeDetections }, target)
    | none => (s, DismissTarget.noTarget)
  else (s, DismissTarget.noTarget)

/-- `MeetingDetectionEngine.setPreferences`: merges the partial update
(`Object.assign`), then starts or stops each signal source according to the
merged preference.  The open-detections map is not touched. -/
structure PrefUpdate where
  processDetection : Option Bool
  audioDetection : Option Bool
deriving DecidableEq, Repr

def setPreferences (prefs : PrefUpdate) (s : EngineState) : EngineState :=
  let prefProcess := prefs.processDetection.getD s.prefProcess
  let prefAudio := prefs.audioDetection.getD s.prefAudio
  { s with
    prefProcess := prefProcess,
    prefAudio := prefAudio,
    procRunning := prefProcess,
    audioRunning := prefAudio }

/-! ## Sustained-audio detector (`AudioActivityDetector`) -/

/-- `CHECK_INTERVAL_MS = 5s`, `SUSTAINED_THRESHOLD_CHECKS = 3`,
`COOLDOWN_MS = 30min`. -/
def SUSTAINED_THRESHOLD_CHECKS : Nat := 3

def COOLDOWN_MS : Int := 30 * 60 * 1000

/-- `AudioActivityDetector` mutable state. -/
structure AudioDetState where
  consecutiveChecks : Nat
  audioActiveStart : Option Int
  hasPrompted : Bool
  lastDismissedAt : Option Int
deriving DecidableEq, Repr

/-- A freshly constructed detector. -/
def audioInit : AudioDetState :=
  { consecutiveChecks := 0, audioActiveStart := none, hasPrompted := false,
    lastDismissedAt := none }

/-- `AudioActivityDetector.dismiss()`: records the dismissal time and resets the
counting state (`_reset`). -/
def audioDismiss (now : Int) (d : AudioDetState) : AudioDetState :=
  { d with
    lastDismissedAt := some now, consecutiveChecks := 0,
    audioActiveStart := none, hasPrompted := false }

/-- `AudioActivityDetector._check()`: skips while the 30-minute cooldown since
the last dismissal is running (the JS guard `if (this.lastDismissedAt && ...)`
treats timestamp 0 as falsy) or after it has already prompted; otherwise counts
consecutive active mic checks and emits `sustained-audio-detected` on the third.
`micActive` is the platform mic probe's result at this tick. -/
def audioCheck (now : Int) (micActive : Bool) (d : AudioDetState) :
    AudioDetState × Option SignalData :=
  let inCooldown :=
    match d.lastDismissedAt with
    | some t => decide (t ≠ 0) && decide (now - t < COOLDOWN_MS)
    | none => false
  if inCooldown then (d, none)
  else if d.hasPrompted then (d, none)
  else if micActive then
    let consecutiveChecks := d.consecutiveChecks + 1
    let audioActiveStart :=
      match d.audioActiveStart with
      | some t => some t
      | none => some now
    if SUSTAINED_THRESHOLD_CHECKS ≤ consecutiveChecks then
      ({ d with
         consecutiveChecks := consecutiveChecks,
         audioActiveStart := audioActiveStart, hasPrompted := true },
       some { processKey := none, appName := none,
              durationMs := some (now - (audioActiveStart.getD now)),
              detectedAt := some now })
    else
      ({ d with
         consecutiveChecks := consecutiveChecks,
         audioActiveStart := audioActiveStart }, none)
  else
    ({ d with consecutiveChecks := 0, audioActiveStart := none }, none)

/-! ## Meeting scheduler (`GoogleCalendarManager` scheduling paths)

State machine over the stored events.  `nextTimer` / `endTimer` model the armed
`setTimeout` handles (a fired handle is inert, so it is dropped when its step
runs).  Each entry point takes the wall-clock time `now` at which it runs and a
fuel bound for the mutual `scheduleNextMeeting` / `onMeetingStart` recursion
(the JS recursion terminates because `notifiedMeetings` grows; fuel makes the
embedding structurally recursive).  The returned list is the sequence of event
ids for which a "meeting starting" notification fired, in order. -/

/-- Scheduler state of `GoogleCalendarManager`. -/
structure SchedState where
  activeMeeting : Option CalEvent
  notified : List String
  nextTimer : Option CalEvent
  endTimer : Option CalEvent
deriving DecidableEq, Repr

/-- `Set.add` on the `notifiedMeetings` set: append only when absent. -/
def addId (l : List String) (id : String) : List String :=
  if id ∈ l then l else l ++ [id]

mutual

/-- `GoogleCalendarManager.scheduleNextMeeting`: clears the pending start timer,
picks the earliest upcoming (24h lookahead) event not yet notified; fires the
start transition immediately when its start has passed, else arms the timer. -/
def scheduleNextMeeting (fuel : Nat) (db : List CalEvent) (now : Int) (s : SchedState) :
    SchedState × List String :=
  match fuel with
  | 0 => (s, [])
  | fuel + 1 =>
    let s1 := { s with nextTimer := none }
    let upcoming := getUpcomingEvents db now 1440
    match upcoming.find? (fun e => !decide (e.id ∈ s1.notified)) with
    | none => (s1, [])
    | some next =>
      if next.start_time - now ≤ 0 then
        onMeetingStart fuel db now next s1
      else
        ({ s1 with nextTimer := some next }, [])

/-- `GoogleCalendarManager.onMeetingStart`: re-validates the event against the
active and 1-minute-upcoming queries; if stale, just reschedules.  Otherwise
sets the active meeting, adds the id to `notifiedMeetings`, fires the start
notification, re-arms the end timer (skipped when the end has passed), and
reschedules for further pending meetings. -/
def onMeetingStart (fuel : Nat) (db : List CalEvent) (now : Int) (event : CalEvent)
    (s : SchedState) : SchedState × List String :=
  match fuel with
  | 0 => (s, [])
  | fuel + 1 =>
    let stillExists :=
      (getActiveEvents db now).any (fun e => e.id = event.id)
        || (getUpcomingEvents db now 1).any (fun e => e.id = event.id)
    if !stillExists then
      scheduleNextMeeting fuel db now s
    else
      let s1 := { s with
                  activeMeeting := some event,
                  notified := addId s.notified event.id,
                  endTimer := if 0 < event.end_time - now then some event else none }
      let r := scheduleNextMeeting fuel db now s1
      (r.1, event.id :: r.2)

end

/-- `GoogleCalendarManager.onMeetingEnd`: broadcasts the end, clears the active
meeting and the end timer, then reschedules. -/
def onMeetingEnd (fuel : Nat) (db : List CalEvent) (now : Int) (s : SchedState) :
    SchedState × List String :=
  scheduleNextMeeting fuel db now { s with activeMeeting := none, endTimer := none }

/-- `GoogleCalendarManager.onWakeFromSleep`: when some event's window covers now
and no meeting is active, fires its start transition immediately; always
reschedules (the post-wake `syncEvents` is the out-of-band resync, with no
scheduler effect of its own here). -/
def onWakeFromSleep (fuel : Nat) (db : List CalEvent) (now : Int) (s : SchedState) :
    SchedState × List String :=
  let r1 :=
    match getActiveEvents db now with
    | [] => (s, ([] : List String))
    | e :: _ =>
      match s.activeMeeting with
      | some _ => (s, [])
      | none => onMeetingStart fuel db now e s
  let r2 := scheduleNextMeeting fuel db now r1.1
  (r2.1, r1.2 ++ r2.2)

/-- The external occurrences that drive the scheduler during normal operation
(no disconnect): a re-scheduling pass (sync completion, selection change), the
armed start timer firing, the armed end timer firing, wake-from-sleep. -/
inductive SchedStep where
  | reschedule (now : Int)
  | startTimerFire (now : Int)
  | endTimerFire (now : Int)
  | wake (now : Int)
deriving DecidableEq, Repr

/-- Run one scheduler step.  A timer step is a no-op unless the matching timer
is armed; firing consumes the handle. -/
def runStep (fuel : Nat) (db : List CalEvent) (step : SchedStep) (s : SchedState) :
    SchedState × List String :=
  match step with
  | SchedStep.reschedule now => scheduleNextMeeting fuel db now s
  | SchedStep.startTimerFire now =>
    match s.nextTimer with
    | none => (s, [])
    | some e => onMeetingStart fuel db now e { s with nextTimer := none }
  | SchedStep.endTimerFire now =>
    match s.endTimer with
    | none => (s, [])
    | some _ => onMeetingEnd fuel db now { s with endTimer := none }
  | SchedStep.wake now => onWakeFromSleep fuel db now s

/-- Run a sequence of scheduler steps, accumulating fired start notifications. -/
def runTrace (fuel : Nat) (db : List CalEvent) (steps : List SchedStep) (s : SchedState) :
    SchedState × List String :=
  match steps with
  | [] => (s, [])
  | step :: rest =>
    let r := runStep fuel db step s
    let r2 := runTrace fuel db rest r.1
    (r2.1, r.2 ++ r2.2)

/-- A scheduler state as freshly constructed. -/
def schedInit : SchedState :=
  { activeMeeting := none, notified := [], nextTimer := none, endTimer := none }

/-! ## PKCE (`GoogleCalendarOAuth.startOAuthFlow`)

`crypto.randomBytes(32).toString("base64url").slice(0, 43)` and
`crypto.createHash("sha256").update(codeVerifier).digest("base64url")`,
modelled over byte lists (`Nat` values < 256).  SHA-256 is implemented in full
(FIPS 180-4) so that the challenge construction is the real digest pipeline. -/

/-- The base64url alphabet (RFC 4648 §5). -/
def base64urlAlphabet : List Char :=
  "ABCDEFGHIJKLMNOPQRSTUVWXYZabcdefghijklmnopqrstuvwxyz0123456789-_".toList

/-- The alphabet character for a 6-bit value. -/
def b64Char (n : Nat) : Char :=
  base64urlAlphabet.getD n 'A'

/-- Unpadded base64url encoding of a byte list (Node's `"base64url"`). -/
def base64urlEncode : List Nat → List Char
  | [] => []
  | [a] => [b64Char (a / 4), b64Char (a % 4 * 16)]
  | [a, b] => [b64Char (a / 4), b64Char (a % 4 * 16 + b / 16), b64Char (b % 16 * 4)]
  | a :: b :: c :: rest =>
    b64Char (a / 4) :: b64Char (a % 4 * 16 + b / 16) ::
      b64Char (b % 16 * 4 + c / 64) :: b64Char (c % 64) :: base64urlEncode rest

/-- Truncation to a 32-bit word. -/
def w32 (n : Nat) : Nat := n % 4294967296

/-- 32-bit right rotation. -/
def rotr32 (n x : Nat) : Nat := w32 ((x >>> n) ||| (x <<< (32 - n)))

def smallSigma0 (x : Nat) : Nat := (rotr32 7 x) ^^^ (rotr32 18 x) ^^^ (x >>> 3)

def smallSigma1 (x : Nat) : Nat := (rotr32 17 x) ^^^ (rotr32 19 x) ^^^ (x >>> 10)

def bigSigma0 (x : Nat) : Nat := (rotr32 2 x) ^^^ (rotr32 13 x) ^^^ (rotr32 22 x)

def bigSigma1 (x : Nat) : Nat := (rotr32 6 x) ^^^ (rotr32 11 x) ^^^ (rotr32 25 x)

def chFn (x y z : Nat) : Nat := (x &&& y) ^^^ ((x ^^^ 0xffffffff) &&& z)

def majFn (x y z : Nat) : Nat := (x &&& y) ^^^ (x &&& z) ^^^ (y &&& z)

/-- The 64 SHA-256 round constants (FIPS 180-4 §4.2.2, in decimal). -/
def sha256K : List Nat :=
  [1116352408, 1899447441, 3049323471, 3921009573, 961987163, 1508970993,
   2453635748, 2870763221, 3624381080, 310598401, 607225278, 1426881987,
   1925078388, 2162078206, 2614888103, 3248222580, 3835390401, 4022224774,
   264347078, 604807628, 770255983, 1249150122, 1555081692, 1996064986,
   2554220882, 2821834349, 2952996808, 3210313671, 3336571891, 3584528711,
   113926993, 338241895, 666307205, 773529912, 1294757372, 1396182291,
   1695183700, 1986661051, 2177026350, 2456956037, 2730485921, 2820302411,
   3259730800, 3345764771, 3516065817, 3600352804, 4094571909, 275423344,
   430227734, 506948616, 659060556, 883997877, 958139571, 1322822218,
   1537002063, 1747873779, 1955562222, 2024104815, 2227730452, 2361852424,
   2428436474, 2756734187, 3204031479, 3329325298]

/-- The SHA-256 initial hash value (FIPS 180-4 §5.3.3, in decimal). -/
def sha256H0 : List Nat :=
  [1779033703, 3144134277, 1013904242, 2773480762,
   1359893119, 2600822924, 528734635, 1541459225]

/-- `k` big-endian bytes of `n`. -/
def beBytes : Nat → Nat → List Nat
  | 0, _ => []
  | k + 1, n => beBytes k (n / 256) ++ [n % 256]

/-- SHA-256 message padding: `0x80`, zeros to 56 mod 64, 8-byte bit length. -/
def sha256Pad (msg : List Nat) : List Nat :=
  let padZeros := (119 - msg.length % 64) % 64
  msg ++ [0x80] ++ List.replicate padZeros 0 ++ beBytes 8 (8 * msg.length)

/-- Group bytes into big-endian 32-bit words. -/
def bytesToWords : List Nat → List Nat
  | a :: b :: c :: d :: rest =>
    (((a * 256 + b) * 256 + c) * 256 + d) :: bytesToWords rest
  | _ => []

/-- The 64-entry message schedule of one block. -/
def messageSchedule (block : List Nat) : Array Nat :=
  (List.range 48).foldl
    (fun w i =>
      w.push (w32 (smallSigma1 (w.getD (i + 14) 0) + w.getD (i + 9) 0 +
        smallSigma0 (w.getD (i + 1) 0) + w.getD i 0)))
    (bytesToWords block).toArray

/-- One SHA-256 compression round over the working tuple `(a,b,c,d,e,f,g,h)`. -/
def sha256Round (w : Array Nat) (st : Nat × Nat × Nat × Nat × Nat × Nat × Nat × Nat)
    (i : Nat) : Nat × Nat × Nat × Nat × Nat × Nat × Nat × Nat :=
  let (a, b, c, d, e, f, g, h) := st
  let t1 := w32 (h + bigSigma1 e + chFn e f g + sha256K.getD i 0 + w.getD i 0)
  let t2 := w32 (bigSigma0 a + majFn a b c)
  (w32 (t1 + t2), a, b, c, w32 (d + t1), e, f, g)

/-- Compress one 64-byte block into the running hash (8 words). -/
def compressBlock (h : List Nat) (block : List Nat) : List Nat :=
  let w := messageSchedule block
  let init := (h.getD 0 0, h.getD 1 0, h.getD 2 0, h.getD 3 0,
               h.getD 4 0, h.getD 5 0, h.getD 6 0, h.getD 7 0)
  let r := (List.range 64).foldl (sha256Round w) init
  [w32 (h.getD 0 0 + r.1), w32 (h.getD 1 0 + r.2.1), w32 (h.getD 2 0 + r.2.2.1),
   w32 (h.getD 3 0 + r.2.2.2.1), w32 (h.getD 4 0 + r.2.2.2.2.1),
   w32 (h.getD 5 0 + r.2.2.2.2.2.1), w32 (h.getD 6 0 + r.2.2.2.2.2.2.1),
   w32 (h.getD 7 0 + r.2.2.2.2.2.2.2)]

/-- Split into 64-byte chunks (fuel-bounded structural recursion). -/
def chunksAux : Nat → List Nat → List (List Nat)
  | 0, _ => []
  | _, [] => []
  | fuel + 1, l => l.take 64 :: chunksAux fuel (l.drop 64)

def chunks64 (l : List Nat) : List (List Nat) :=
  chunksAux (l.length / 64 + 1) l

/-- SHA-256 of a byte list, as a 32-byte digest. -/
def sha256 (msg : List Nat) : List Nat :=
  ((chunks64 (sha256Pad msg)).foldl compressBlock sha256H0).foldr
    (fun wd acc => beBytes 4 wd ++ acc) []

/-- UTF-8 bytes of an ASCII string (the code verifier is base64url ASCII, where
UTF-8 agrees with the code points). -/
def strBytes (s : String) : List Nat := s.toList.map Char.toNat

def CALENDAR_SCOPE : String :=
  "openid email https://www.googleapis.com/auth/calendar.readonly"

/-- `startOAuthFlow`'s code verifier:
`crypto.randomBytes(32).toString("base64url").slice(0, 43)`. -/
def codeVerifier (randomBytes : List Nat) : String :=
  String.mk ((base64urlEncode randomBytes).take 43)

/-- `startOAuthFlow`'s code challenge:
`createHash("sha256").update(codeVerifier).digest("base64url")`. -/
def codeChallenge (randomBytes : List Nat) : String :=
  String.mk (base64urlEncode (sha256 (strBytes (codeVerifier randomBytes))))

/-- The authorization-URL query parameters built in `startOAuthFlow`'s
`server.listen` callback. -/
def authorizationParams (clientId : String) (port : Nat) (state : String)
    (randomBytes : List Nat) : List (String × String) :=
  [("client_id", clientId),
   ("redirect_uri", "http://127.0.0.1:" ++ toString port),
   ("response_type", "code"),
   ("scope", CALENDAR_SCOPE),
   ("access_type", "offline"),
   ("prompt", "consent"),
   ("state", state),
   ("code_challenge", codeChallenge randomBytes),
   ("code_challenge_method", "S256")]

/-! ## Concrete fixtures used by witnesses and counterexamples -/

/-- A fresh engine with both signal kinds enabled and started. -/
def engineInit : EngineState :=
  { activeDetections := [], prefProcess := true, prefAudio := true,
    procRunning := true, audioRunning := true }

/-- A credential whose access token expired at epoch 0. -/
def c2tokens : GoogleTokens :=
  { google_email := "user@example.com", access_token := "tokA",
    refresh_token := "refreshA", expires_at := 0, scope := "cal" }

/-- A successful refresh-exchange reply. -/
def c2resp : TokenResponse :=
  { error := none, error_description := none, access_token := "tokB", expires_in := 3600 }

/-- A calendar with a stored (non-empty) sync token. -/
def c3cal : GoogleCalendar :=
  { id := "C1", summary := "Primary", is_selected := true, sync_token := some "tok" }

/-- The provider's cursor-invalidated error. -/
def c3err : ApiErr := { message := "Gone", statusCode := some 410 }

/-- A clean full-resync response. -/
def c3data : SyncData := { items := [], nextSyncToken := some "fresh" }

/-- A calendar API that rejects the stored cursor with 410 Gone and serves the
full-window request. -/
def c3api : SyncRequest → Except ApiErr SyncData := fun r =>
  if r.syncToken = some "tok" then Except.error c3err else Except.ok c3data

/-- A cancelled response item. -/
def c7cancelled : ApiItem :=
  { id := "X", status := some "cancelled", summary := none, startT := none,
    endT := none, hangoutLink := none, conferenceData := none,
    organizerEmail := none, attendees := none }

/-- A confirmed timed response item. -/
def c7live : ApiItem :=
  { id := "Y", status := some "confirmed", summary := some "Standup",
    startT := some { dateTime := some "2026-01-01T10:00:00Z", date := none },
    endT := some { dateTime := some "2026-01-01T10:30:00Z", date := none },
    hangoutLink := none, conferenceData := none, organizerEmail := none,
    attendees := some 2 }

def c7items : List ApiItem := [c7cancelled, c7live]

/-- The stored credential before a save. -/
def c8stored : GoogleTokens :=
  { google_email := "old@example.com", access_token := "a1",
    refresh_token := "r1", expires_at := 100, scope := "cal" }

/-- The credential being saved. -/
def c8next : GoogleTokens :=
  { google_email := "new@example.com", access_token := "a2",
    refresh_token := "r2", expires_at := 200, scope := "cal" }

/-- A currently-running calendar event. -/
def c1activeEvent : CalEvent :=
  { id := "A", calendar_id := "C1", summary := some "Weekly sync",
    start_time := 0, end_time := 3600000, is_all_day := false,
    status := "confirmed", hangout_link := none, conference_data := none,
    organizer_email := none, attendees_count := 3 }

/-- A calendar state reporting an active meeting. -/
def c1cs : CalendarMeetingState :=
  { activeMeeting := some c1activeEvent, activeEvents := [c1activeEvent],
    upcomingEvents := [] }

/-- An open (not yet dismissed) audio Detection. -/
def c9detection : Detection :=
  { source := "audio", key := "sustained-audio",
    data := { processKey := none, appName := none, durationMs := some 15000,
              detectedAt := some 1 },
    dismissed := false }

/-- An engine with an open audio Detection, all sources enabled. -/
def c9state : EngineState :=
  { activeDetections := [("audio:sustained-audio", c9detection)],
    prefProcess := true, prefAudio := true, procRunning := true, audioRunning := true }

/-- A preference change disabling audio detection only. -/
def c9prefs : PrefUpdate := { processDetection := none, audioDetection := some false }

/-- Overlapping meetings: E1 10:00–11:00, E2 10:15–10:30 (epoch-relative ms:
E1 starts at 60000 and ends at 3660000, E2 starts at 900000, ends 1800000). -/
def evE1 : CalEvent :=
  { id := "E1", calendar_id := "C1", summary := some "Long meeting",
    start_time := 60000, end_time := 3660000, is_all_day := false,
    status := "confirmed", hangout_link := none, conference_data := none,
    organizer_email := none, attendees_count := 2 }

def evE2 : CalEvent :=
  { id := "E2", calendar_id := "C1", summary := some "Overlap meeting",
    start_time := 900000, end_time := 1800000, is_all_day := false,
    status := "confirmed", hangout_link := none, conference_data := none,
    organizer_email := none, attendees_count := 2 }

def c4db : List CalEvent := [evE1, evE2]

/-- Normal operation: initial scheduling pass, E1's start timer fires, E2's
start timer fires, E2's end timer fires, then the host wakes from sleep while
E1 is still running. -/
def c4trace : List SchedStep :=
  [SchedStep.reschedule 0, SchedStep.startTimerFire 60000,
   SchedStep.startTimerFire 900000, SchedStep.endTimerFire 1800000,
   SchedStep.wake 2400000]

/-- A calendar layer reporting nothing at all. -/
def c6emptyCal : CalendarMeetingState :=
  { activeMeeting := none, activeEvents := [], upcomingEvents := [] }

/-- The detector after three consecutive active mic checks at 0 / 5000 / 10000:
emits the sustained-audio signal on the third. -/
def c6det1 : AudioDetState × Option SignalData :=
  let r0 := audioCheck 0 true audioInit
  let r1 := audioCheck 5000 true r0.1
  audioCheck 10000 true r1.1

/-- The signal payload emitted at 10000. -/
def c6sig1 : SignalData :=
  { processKey := none, appName := none, durationMs := some 10000,
    detectedAt := some 10000 }

/-- The engine after the first sustained-audio detection was handled. -/
def c6engine1 : EngineState :=
  (handleDetection "audio" "sustained-audio" c6sig1 (some c6emptyCal) 10000 engineInit).1

/-- The user dismisses the audio Detection at T = 1000000. -/
def c6afterResponse : EngineState × DismissTarget :=
  handleUserResponse "audio:sustained-audio" "dismiss" c6engine1

/-- The audio detector after `dismiss()` ran at T. -/
def c6detDismissed : AudioDetState := audioDismiss 1000000 c6det1.1

/-- A mic check at T+10min (inside the 30-minute cooldown). -/
def c6checkAt10 : AudioDetState × Option SignalData :=
  audioCheck 1600000 true c6detDismissed

/-- Three consecutive active mic checks at T+30:50 / T+30:55 / T+31:00 (after
the cooldown): the detector emits again on the third. -/
def c6detFinal : AudioDetState × Option SignalData :=
  let r1 := audioCheck 2850000 true c6detDismissed
  let r2 := audioCheck 2855000 true r1.1
  audioCheck 2860000 true r2.1

/-- The signal payload emitted at T+31min. -/
def c6sig2 : SignalData :=
  { processKey := none, appName := none, durationMs := some 10000,
    detectedAt := some 2860000 }

/-- 32 concrete "random" bytes. -/
def c5bytes : List Nat := List.range 32

/-! ## Theorems -/

/-- C10: with no imminent calendar event attached, clicking the prompt
broadcasts `meeting-detected-start-recording` with a synthetic event whose
`calendar_id` is `"__detected__"`, whose `start_time` is the click time, whose
`end_time` is one hour later, and whose status is `"confirmed"`; when an
imminent event was found, that real event is sent instead. -/
theorem promptClick_synthetic_event_shape (detectionId source : String)
    (data : SignalData) (now : Int) :
    ((promptClick detectionId source data none now).1 = "meeting-detected-start-recording"
      ∧ (promptClick detectionId source data none now).2.event.calendar_id = "__detected__"
      ∧ (promptClick detectionId source data none now).2.event.start_time = now
      ∧ (promptClick detectionId source data none now).2.event.end_time = now + 3600000
      ∧ (promptClick detectionId source data none now).2.event.status = "confirmed")
    ∧ ∀ evt : CalEvent, (promptClick detectionId source data (some evt) now).2.event = evt := by
  exact ⟨⟨rfl, rfl, rfl, rfl, rfl⟩, fun evt => rfl⟩

/-- C8 counterexample: a save whose insert statement fails (after the
unconditional delete) reports an error but leaves an empty table — the
previously stored credential record is not left unchanged. -/
theorem saveGoogleTokens_failure_loses_prior_record :
    (saveGoogleTokens [c8stored] false true c8next).1 =
        Except.error "Error saving Google tokens"
    ∧ (saveGoogleTokens [c8stored] false true c8next).2 = []
    ∧ (saveGoogleTokens [c8stored] false true c8next).2 ≠ [c8stored] := by
  refine ⟨rfl, rfl, by decide⟩

/-- C8 amended: after every save at most one credential record exists, and a
fully successful save leaves exactly the new record; but the delete-then-insert
pair is not atomic — when the insert fails after the delete ran, no record
remains (the prior record is lost). -/
theorem saveGoogleTokens_singleton_replace (rows : List GoogleTokens)
    (deleteFails insertFails : Bool) (t : GoogleTokens) (h : rows.length ≤ 1) :
    (saveGoogleTokens rows deleteFails insertFails t).2.length ≤ 1
    ∧ (deleteFails = false → insertFails = false →
        saveGoogleTokens rows deleteFails insertFails t = (Except.ok (), [t]))
    ∧ (deleteFails = false → insertFails = true →
        (saveGoogleTokens rows deleteFails insertFails t).2 = []) := by
  unfold saveGoogleTokens
  cases deleteFails <;> cases insertFails <;> simp_all

/-- Witness for the amended C8 theorem at a concrete store and credential. -/
theorem saveGoogleTokens_singleton_replace_witness :
    ([c8stored].length ≤ 1)
    ∧ ((saveGoogleTokens [c8stored] false false c8next).2.length ≤ 1
      ∧ (false = false → false = false →
          saveGoogleTokens [c8stored] false false c8next = (Except.ok (), [c8next]))
      ∧ (false = false → false = true →
          (saveGoogleTokens [c8stored] false false c8next).2 = [])) :=
  ⟨by decide, saveGoogleTokens_singleton_replace [c8stored] false false c8next (by decide)⟩

/-- C9 counterexample: disabling audio detection stops the audio source but an
open, non-dismissed audio Detection remains in the open-detections map. -/
theorem setPreferences_leaves_stale_detection :
    (setPreferences c9prefs c9state).audioRunning = false
    ∧ (setPreferences c9prefs c9state).prefAudio = false
    ∧ (setPreferences c9prefs c9state).activeDetections.any
        (fun p => p.2.source = "audio" && !p.2.dismissed) = true := by decide

/-- C9 amended: a preference change that disables a signal kind stops the
corresponding signal source, but the open-detections map is left unchanged, so
open Detections of the disabled kind remain. -/
theorem setPreferences_stops_source_keeps_map (prefs : PrefUpdate) (s : EngineState) :
    (setPreferences prefs s).activeDetections = s.activeDetections
    ∧ (prefs.audioDetection = some false → (setPreferences prefs s).audioRunning = false)
    ∧ (prefs.processDetection = some false → (setPreferences prefs s).procRunning = false) := by
  refine ⟨rfl, ?_, ?_⟩ <;> intro h <;> simp [setPreferences, h]

/-- Witness for the amended C9 theorem at a concrete state and update. -/
theorem setPreferences_stops_source_keeps_map_witness :
    (setPreferences c9prefs c9state).activeDetections = c9state.activeDetections
    ∧ (c9prefs.audioDetection = some false →
        (setPreferences c9prefs c9state).audioRunning = false)
    ∧ (c9prefs.processDetection = some false →
        (setPreferences c9prefs c9state).procRunning = false) :=
  setPreferences_stops_source_keeps_map c9prefs c9state

/-- C2: `getValidAccessToken` issues a refresh-token exchange iff `expires_at`
is less than 5 minutes from now; a successful refresh persists the new access
token and expiry while keeping the stored refresh token, email and scope; with
5 or more minutes left it performs no refresh and returns the stored token with
the store untouched. -/
theorem getValidAccessToken_refresh_boundary (tokens : GoogleTokens) (now : Int)
    (resp : TokenResponse) :
    ((getValidAccessToken (some tokens) now resp).2.2 = true
        ↔ tokens.expires_at < now + 5 * 60 * 1000)
    ∧ (tokens.expires_at < now + 5 * 60 * 1000 → resp.error = none →
        getValidAccessToken (some tokens) now resp =
          (Except.ok resp.access_token,
           some { google_email := tokens.google_email,
                  access_token := resp.access_token,
                  refresh_token := tokens.refresh_token,
                  expires_at := now + resp.expires_in * 1000,
                  scope := tokens.scope }, true))
    ∧ (now + 5 * 60 * 1000 ≤ tokens.expires_at →
        getValidAccessToken (some tokens) now resp =
          (Except.ok tokens.access_token, some tokens, false)) := by
  by_cases h : tokens.expires_at - 300000 < now
  · refine ⟨?_, ?_, ?_⟩
    · cases he : resp.error <;> simp [getValidAccessToken, h, he] <;> omega
    · intro _ hnone
      simp [getValidAccessToken, h, hnone]
    · intro h2
      exfalso
      omega
  · refine ⟨?_, ?_, ?_⟩
    · simp [getValidAccessToken, h]
      omega
    · intro h1
      exfalso
      omega
    · intro _
      simp [getValidAccessToken, h]

/-- Witness for C2 at a credential that expired at epoch 0, queried at epoch 0. -/
theorem getValidAccessToken_refresh_boundary_witness :
    ((getValidAccessToken (some c2tokens) 0 c2resp).2.2 = true
        ↔ c2tokens.expires_at < 0 + 5 * 60 * 1000)
    ∧ (c2tokens.expires_at < 0 + 5 * 60 * 1000 → c2resp.error = none →
        getValidAccessToken (some c2tokens) 0 c2resp =
          (Except.ok c2resp.access_token,
           some { google_email := c2tokens.google_email,
                  access_token := c2resp.access_token,
                  refresh_token := c2tokens.refresh_token,
                  expires_at := 0 + c2resp.expires_in * 1000,
                  scope := c2tokens.scope }, true))
    ∧ (0 + 5 * 60 * 1000 ≤ c2tokens.expires_at →
        getValidAccessToken (some c2tokens) 0 c2resp =
          (Except.ok c2tokens.access_token, some c2tokens, false)) :=
  getValidAccessToken_refresh_boundary c2tokens 0 c2resp

/-- C1: when the calendar layer reports an active meeting (non-null
`activeMeeting` slot or a currently-active calendar event), a `signal-started`
from process or audio detection is suppressed: the open-detections map is
unchanged and no notification or broadcast is raised. -/
theorem active_calendar_meeting_suppresses_signal (source key : String)
    (data : SignalData) (cs : CalendarMeetingState) (now : Int) (s : EngineState)
    (h : cs.activeMeeting ≠ none ∨ cs.activeEvents ≠ []) :
    handleDetection source key data (some cs) now s = (s, []) := by
  have hsup : (cs.activeMeeting.isSome || decide (0 < cs.activeEvents.length)) = true := by
    rcases h with h | h
    · simp [Option.isSome_iff_ne_none, h]
    · simp [List.length_pos.mpr h]
  unfold handleDetection
  split
  · rfl
  · split
    · rfl
    · split
      · next cs2 heq =>
        injection heq with heq2
        subst heq2
        simp [hsup]
      · next heq => exact Option.noConfusion heq

/-- Witness for C1: an audio signal arriving while meeting `A` is active is
dropped without touching the fresh engine state. -/
theorem active_calendar_meeting_suppresses_signal_witness :
    (c1cs.activeMeeting ≠ none ∨ c1cs.activeEvents ≠ [])
    ∧ handleDetection "audio" "sustained-audio" c6sig1 (some c1cs) 10000 engineInit
        = (engineInit, []) :=
  ⟨Or.inl (by decide),
   active_calendar_meeting_suppresses_signal "audio" "sustained-audio" c6sig1 c1cs
     10000 engineInit (Or.inl (by decide))⟩

/-- C3: when the stored cursor's incremental request fails with 410 Gone,
`_syncCalendar` retries exactly once with the full-window request (now to
now+7d, ordered by start time) and the invalidation error is not surfaced: the
retry's outcome is the result.  Any other error status is propagated without a
retry. -/
theorem syncCalendar_gone_retries_full_window_once (cal : GoogleCalendar)
    (tok : String) (now : Int) (api : SyncRequest → Except ApiErr SyncData)
    (e : ApiErr) (hct : cal.sync_token = some tok) (hne : tok.isEmpty = false)
    (hfail : api (incrementalRequest tok) = Except.error e) :
    (e.statusCode = some 410 →
      (syncCalendar cal now api).1 = [incrementalRequest tok, fullWindowRequest now]
      ∧ (∀ d, api (fullWindowRequest now) = Except.ok d →
          (syncCalendar cal now api).2 = Except.ok (applySyncData cal d))
      ∧ (∀ e2, api (fullWindowRequest now) = Except.error e2 →
          (syncCalendar cal now api).2 = Except.error e2))
    ∧ (e.statusCode ≠ some 410 →
      (syncCalendar cal now api).1 = [incrementalRequest tok]
      ∧ (syncCalendar cal now api).2 = Except.error e) := by
  unfold syncCalendar
  rw [hct]
  simp only [jsStrTruthy, hne, Bool.not_false, if_true, Option.getD_some]
  rw [hfail]
  dsimp only
  constructor
  · intro h410
    rw [if_pos h410]
    cases hretry : api (fullWindowRequest now) with
    | ok d =>
      dsimp only
      refine ⟨rfl, ?_, ?_⟩
      · intro d2 hd2
        cases hd2
        rfl
      · intro e2 he2
        exact Except.noConfusion he2
    | error e2 =>
      dsimp only
      refine ⟨rfl, ?_, ?_⟩
      · intro d2 hd2
        exact Except.noConfusion hd2
      · intro e3 he3
        cases he3
        rfl
  · intro hother
    rw [if_neg hother]
    exact ⟨rfl, rfl⟩

/-- Witness for C3: a concrete calendar with cursor `"tok"` against an API that
answers 410 on the cursor and serves the full window. -/
theorem syncCalendar_gone_retries_full_window_once_witness :
    (c3cal.sync_token = some "tok")
    ∧ ("tok".isEmpty = false)
    ∧ (c3api (incrementalRequest "tok") = Except.error c3err)
    ∧ ((c3err.statusCode = some 410 →
        (syncCalendar c3cal 0 c3api).1 = [incrementalRequest "tok", fullWindowRequest 0]
        ∧ (∀ d, c3api (fullWindowRequest 0) = Except.ok d →
            (syncCalendar c3cal 0 c3api).2 = Except.ok (applySyncData c3cal d))
        ∧ (∀ e2, c3api (fullWindowRequest 0) = Except.error e2 →
            (syncCalendar c3cal 0 c3api).2 = Except.error e2))
      ∧ (c3err.statusCode ≠ some 410 →
        (syncCalendar c3cal 0 c3api).1 = [incrementalRequest "tok"]
        ∧ (syncCalendar c3cal 0 c3api).2 = Except.error c3err)) :=
  ⟨rfl, rfl, rfl,
   syncCalendar_gone_retries_full_window_once c3cal "tok" 0 c3api c3err rfl rfl rfl⟩

/-- The partition loop of `_syncCalendar` filters by the cancelled status. -/
theorem partitionItems_eq (calendarId : String) (items : List ApiItem) :
    partitionItems calendarId items =
      ((items.filter (fun i => !decide (i.status = some "cancelled"))).map
          (mkSyncRow calendarId),
       (items.filter (fun i => decide (i.status = some "cancelled"))).map ApiItem.id) := by
  induction items with
  | nil => rfl
  | cons item rest ih =>
    by_cases h : item.status = some "cancelled" <;>
      simp [partitionItems, ih, h]

/-- C7: the upsert/removal partition is exact — every cancelled item's id is in
the removal list and no upsert row carries it; every non-cancelled item's row is
in the upsert list and its id is not removed.  (Response item ids are unique
per calendar.) -/
theorem partition_cancelled_exact (calendarId : String) (items : List ApiItem)
    (hids : (items.map ApiItem.id).Nodup) :
    (∀ i ∈ items, i.status = some "cancelled" →
      i.id ∈ (partitionItems calendarId items).2
      ∧ ∀ u ∈ (partitionItems calendarId items).1, u.id ≠ i.id)
    ∧ (∀ i ∈ items, i.status ≠ some "cancelled" →
      mkSyncRow calendarId i ∈ (partitionItems calendarId items).1
      ∧ i.id ∉ (partitionItems calendarId items).2) := by
  rw [partitionItems_eq]
  constructor
  · intro i hi hc
    constructor
    · exact List.mem_map.mpr ⟨i, List.mem_filter.mpr ⟨hi, by simp [hc]⟩, rfl⟩
    · intro u hu heq
      rcases List.mem_map.mp hu with ⟨j, hj, rfl⟩
      rcases List.mem_filter.mp hj with ⟨hjmem, hjstat⟩
      have hjid : (mkSyncRow calendarId j).id = j.id := rfl
      rw [hjid] at heq
      have hij : j = i := List.inj_on_of_nodup_map hids hjmem hi heq
      rw [hij, hc] at hjstat
      simp at hjstat
  · intro i hi hc
    constructor
    · exact List.mem_map.mpr ⟨i, List.mem_filter.mpr ⟨hi, by simp [hc]⟩, rfl⟩
    · intro hmem
      rcases List.mem_map.mp hmem with ⟨j, hj, hjid⟩
      rcases List.mem_filter.mp hj with ⟨hjmem, hjstat⟩
      have hij : j = i := List.inj_on_of_nodup_map hids hjmem hi hjid
      rw [hij] at hjstat
      simp [hc] at hjstat

/-- Witness for C7 on a two-item response (one cancelled, one confirmed). -/
theorem partition_cancelled_exact_witness :
    ((c7items.map ApiItem.id).Nodup)
    ∧ ((∀ i ∈ c7items, i.status = some "cancelled" →
        i.id ∈ (partitionItems "C1" c7items).2
        ∧ ∀ u ∈ (partitionItems "C1" c7items).1, u.id ≠ i.id)
      ∧ (∀ i ∈ c7items, i.status ≠ some "cancelled" →
        mkSyncRow "C1" i ∈ (partitionItems "C1" c7items).1
        ∧ i.id ∉ (partitionItems "C1" c7items).2)) :=
  ⟨by decide, partition_cancelled_exact "C1" c7items (by decide)⟩

/-- Unpadded base64url of `3n+2` bytes is `4n+3` characters. -/
theorem base64urlEncode_len_aux (n : Nat) : ∀ l : List Nat, l.length = 3 * n + 2 →
    (base64urlEncode l).length = 4 * n + 3 := by
  induction n with
  | zero =>
    intro l h
    match l with
    | [] => simp at h
    | [a] => simp at h
    | [a, b] => rfl
    | a :: b :: c :: rest => simp at h
  | succ n ih =>
    intro l h
    match l with
    | [] => simp at h
    | [a] => simp at h
    | [a, b] => simp at h
    | a :: b :: c :: rest =>
      have hr : rest.length = 3 * n + 2 := by simp at h; omega
      have := ih rest hr
      simp [base64urlEncode, this]
      omega

/-- C5: the generated code verifier is exactly 43 characters, and the
`code_challenge` parameter placed in the authorization URL (alongside
`code_challenge_method=S256`) is the base64url encoding of the SHA-256 digest
of that code verifier. -/
theorem pkce_verifier_length_and_challenge_roundtrip (randomBytes : List Nat)
    (clientId state : String) (port : Nat) (hlen : randomBytes.length = 32) :
    (codeVerifier randomBytes).length = 43
    ∧ (authorizationParams clientId port state randomBytes).lookup "code_challenge"
        = some (String.mk (base64urlEncode (sha256 (strBytes (codeVerifier randomBytes)))))
    ∧ (authorizationParams clientId port state randomBytes).lookup "code_challenge_method"
        = some "S256" := by
  refine ⟨?_, ?_, ?_⟩
  · have h1 : (base64urlEncode randomBytes).length = 43 := by
      have h2 := base64urlEncode_len_aux 10 randomBytes (by omega)
      omega
    show (String.mk ((base64urlEncode randomBytes).take 43)).length = 43
    simp [String.length, List.length_take, h1]
  · rfl
  · rfl

/-- Witness for C5 on 32 concrete bytes. -/
theorem pkce_verifier_length_and_challenge_roundtrip_witness :
    (c5bytes.length = 32)
    ∧ ((codeVerifier c5bytes).length = 43
      ∧ (authorizationParams "cid" 8080 "st" c5bytes).lookup "code_challenge"
          = some (String.mk (base64urlEncode (sha256 (strBytes (codeVerifier c5bytes)))))
      ∧ (authorizationParams "cid" 8080 "st" c5bytes).lookup "code_challenge_method"
          = some "S256") :=
  ⟨by decide,
   pkce_verifier_length_and_challenge_roundtrip c5bytes "cid" "st" 8080 (by decide)⟩

theorem subset_addId (l : List String) (id : String) : l ⊆ addId l id := by
  unfold addId
  split
  · exact fun x hx => hx
  · exact fun x hx => List.mem_append_left _ hx

theorem mem_addId_self (l : List String) (id : String) : id ∈ addId l id := by
  unfold addId
  split
  · next h => exact h
  · exact List.mem_append_right _ (List.mem_singleton_self id)

theorem find?_fresh {db : List CalEvent} {now win : Int} {notified : List String}
    {next : CalEvent}
    (h : (getUpcomingEvents db now win).find? (fun e => !decide (e.id ∈ notified))
          = some next) :
    next.id ∉ notified := by
  have h2 := List.find?_some h
  simpa using h2

/-- Joint invariant of the mutual scheduling recursion: `notifiedMeetings` only
grows, a `scheduleNextMeeting` pass fires only ids that were not yet notified
(each at most once), and `onMeetingStart` fires only its own event id plus
not-yet-notified ids. -/
theorem schedule_start_inv (fuel : Nat) :
    (∀ db now s, s.notified ⊆ (scheduleNextMeeting fuel db now s).1.notified
      ∧ (∀ id ∈ (scheduleNextMeeting fuel db now s).2, id ∉ s.notified)
      ∧ (scheduleNextMeeting fuel db now s).2.Nodup)
    ∧ (∀ db now e s, s.notified ⊆ (onMeetingStart fuel db now e s).1.notified
      ∧ (∀ id ∈ (onMeetingStart fuel db now e s).2, id = e.id ∨ id ∉ s.notified)
      ∧ (onMeetingStart fuel db now e s).2.Nodup) := by
  induction fuel with
  | zero =>
    constructor
    · intro db now s
      exact ⟨fun x hx => hx, by simp [scheduleNextMeeting], by simp [scheduleNextMeeting]⟩
    · intro db now e s
      exact ⟨fun x hx => hx, by simp [onMeetingStart], by simp [onMeetingStart]⟩
  | succ fuel ih =>
    obtain ⟨ihS, ihM⟩ := ih
    constructor
    · intro db now s
      simp only [scheduleNextMeeting]
      cases hfind : (getUpcomingEvents db now 1440).find?
          (fun e => !decide (e.id ∈ s.notified)) with
      | none => exact ⟨fun x hx => hx, by simp, by simp⟩
      | some next =>
        have hfresh : next.id ∉ s.notified := find?_fresh hfind
        by_cases hdel : next.start_time - now ≤ 0
        · simp only [hdel, if_true]
          obtain ⟨hmono, hfired, hnodup⟩ :=
            ihM db now next { s with nextTimer := none }
          exact ⟨hmono, fun id hid =>
            (hfired id hid).elim (fun h => h ▸ hfresh) (fun h => h), hnodup⟩
        · simp only [hdel, if_false]
          exact ⟨fun x hx => hx, by simp, by simp⟩
    · intro db now e s
      simp only [onMeetingStart]
      by_cases hstill : ((getActiveEvents db now).any (fun x => x.id = e.id)
          || (getUpcomingEvents db now 1).any (fun x => x.id = e.id)) = true
      · simp only [hstill, Bool.not_true, Bool.false_eq_true, if_false]
        set s1 : SchedState :=
          { s with
            activeMeeting := some e,
            notified := addId s.notified e.id,
            endTimer := if 0 < e.end_time - now then some e else none } with hs1
        obtain ⟨hmono, hfired, hnodup⟩ := ihS db now s1
        have hsub : s.notified ⊆ s1.notified := subset_addId s.notified e.id
        refine ⟨fun x hx => hmono (hsub hx), ?_, ?_⟩
        · intro id hid
          rcases List.mem_cons.mp hid with h | h
          · exact Or.inl h
          · exact Or.inr (fun hmem => hfired id h (hsub hmem))
        · refine List.nodup_cons.mpr ⟨?_, hnodup⟩
          intro hmem
          exact hfired e.id hmem (mem_addId_self s.notified e.id)
      · simp only [hstill, Bool.not_false, if_true]
        obtain ⟨hmono, hfired, hnodup⟩ := ihS db now s
        exact ⟨hmono, fun id hid => Or.inr (hfired id hid), hnodup⟩

/-- C4 counterexample: overlapping meetings E1 and E2 under normal operation
(timers and one wake, no disconnect): E1's start notification fires twice —
once from its start timer and again from the wake-from-sleep transition after
E2 ended, because `onWakeFromSleep` does not consult `notifiedMeetings`. -/
theorem wake_renotifies_already_notified_event :
    (runTrace 10 c4db c4trace schedInit).2 = ["E1", "E2", "E1"]
    ∧ ¬((runTrace 10 c4db c4trace schedInit).2.count "E1" ≤ 1) := by decide

/-- C4 amended: `notified_event_ids` only grows under every scheduling step,
and a `scheduleNextMeeting` pass (consecutive passes, timer arming, immediate
fire) never notifies an already-notified event id and never fires the same id
twice within the pass; the wake-from-sleep path is not covered by this
guarantee. -/
theorem notified_grows_and_reschedule_never_renotifies (fuel : Nat)
    (db : List CalEvent) :
    (∀ step s, s.notified ⊆ (runStep fuel db step s).1.notified)
    ∧ (∀ now s, (∀ id ∈ (scheduleNextMeeting fuel db now s).2, id ∉ s.notified)
        ∧ (scheduleNextMeeting fuel db now s).2.Nodup) := by
  obtain ⟨hS, hM⟩ := schedule_start_inv fuel
  constructor
  · intro step s
    cases step with
    | reschedule now => exact (hS db now s).1
    | startTimerFire now =>
      simp only [runStep]
      cases s.nextTimer with
      | none => exact fun x hx => hx
      | some e => exact (hM db now e { s with nextTimer := none }).1
    | endTimerFire now =>
      simp only [runStep]
      cases s.endTimer with
      | none => exact fun x hx => hx
      | some e =>
        dsimp only
        simp only [onMeetingEnd]
        exact (hS db now { s with activeMeeting := none, endTimer := none }).1
    | wake now =>
      simp only [runStep, onWakeFromSleep]
      cases hact : getActiveEvents db now with
      | nil => exact (hS db now s).1
      | cons e rest =>
        cases ham : s.activeMeeting with
        | some m => exact (hS db now s).1
        | none =>
          intro x hx
          exact (hS db now (onMeetingStart fuel db now e s).1).1
            ((hM db now e s).1 hx)
  · intro now s
    exact ⟨(hS db now s).2.1, (hS db now s).2.2⟩

/-- Witness for the C4 theorem at a concrete store, step and state. -/
theorem notified_grows_and_reschedule_never_renotifies_witness :
    (schedInit.notified ⊆
        (runStep 10 c4db (SchedStep.reschedule 0) schedInit).1.notified)
    ∧ (∀ id ∈ (scheduleNextMeeting 10 c4db 0 schedInit).2, id ∉ schedInit.notified)
    ∧ (scheduleNextMeeting 10 c4db 0 schedInit).2.Nodup :=
  ⟨(notified_grows_and_reschedule_never_renotifies 10 c4db).1
      (SchedStep.reschedule 0) schedInit,
   ((notified_grows_and_reschedule_never_renotifies 10 c4db).2 0 schedInit).1,
   ((notified_grows_and_reschedule_never_renotifies 10 c4db).2 0 schedInit).2⟩

/-- C6 (evaluating the code at the failing input): the user dismisses the
`audio:sustained-audio` Detection at T = 1000000; a mic check at T+10min emits
nothing (cooldown running, the signal is ignored), and after the cooldown three
consecutive active checks make the detector re-emit `sustained-audio-detected`
at T+31min; but `_handleDetection` drops that new signal because the dismissed
Detection entry is still in the open-detections map — no new Detection is
recorded and no prompt is raised, while the detector's cooldown machinery and
the Detection's `dismissed` flag show a post-cooldown re-prompt was intended. -/
theorem dismissed_audio_detection_never_reprompts :
    c6det1.2 = some c6sig1
    ∧ c6engine1.activeDetections =
        [("audio:sustained-audio",
          { source := "audio", key := "sustained-audio", data := c6sig1,
            dismissed := false })]
    ∧ c6afterResponse.2 = DismissTarget.audio
    ∧ c6afterResponse.1.activeDetections =
        [("audio:sustained-audio",
          { source := "audio", key := "sustained-audio", data := c6sig1,
            dismissed := true })]
    ∧ c6checkAt10.2 = none
    ∧ c6detFinal.2 = some c6sig2
    ∧ handleDetection "audio" "sustained-audio" c6sig2 (some c6emptyCal) 2860000
        c6afterResponse.1 = (c6afterResponse.1, []) := by decide

end OpenWhispr
